import Mathlib

/-!
Verification development for the `playmate` command-line utility
(`src/main.rs`, ~217 lines).  The program moves the currently playing
track of a streaming account into a configured playlist.

Shallow embedding conventions:
* The on-disk configuration file (`config.toml`) is modelled at the
  key/value document level (`TomlDoc`): TOML text serialization
  mechanics belong to the external `toml` crate and are out of scope
  for the spec; what matters to the program is that serializing emits
  exactly the `Some` fields and that parsing fills absent keys with
  `None` (serde's behaviour for `Option` fields) and ignores unknown
  keys.  An absent file is `Option.none`; a freshly created empty file
  is the empty document `[]`.
* The file system is a map from profile name to the (optional) content
  of `<app-data>/playmate/<profile>/config.toml`.  The `APPDATA`
  environment variable is assumed set (its absence aborts the process
  before any behaviour covered by the claims).
* Rust panics (`expect`/`unwrap`) are modelled as `Except.error` /
  explicit `panicked` outcomes; a blocking read from an exhausted
  input-line list is modelled as a `blocked` outcome.
-/

/-- A TOML value as far as `playmate`'s config schema is concerned:
string values (`playlist_id`, `playlist_snapshot_id`) and arrays of
strings (`playlist_track_cache`). -/
inductive TomlValue
  | str (s : String)
  | arr (xs : List String)
deriving DecidableEq, Repr

/-- A parsed TOML document: an association list of top-level keys. -/
def TomlDoc : Type := List (String × TomlValue)

instance : DecidableEq TomlDoc := by
  unfold TomlDoc
  infer_instance

/-- The persisted per-profile record (`PlaymateConfig` in `main.rs`
lines 21-26).  `PlaylistId` and `TrackId` are opaque identifier
strings. -/
structure PlaymateConfig where
  playlist_id : Option String
  playlist_snapshot_id : Option String
  playlist_track_cache : Option (List String)
deriving DecidableEq, Repr

/-- `PlaymateConfig::new` (`main.rs` lines 29-35). -/
def PlaymateConfig.new : PlaymateConfig :=
  { playlist_id := none, playlist_snapshot_id := none, playlist_track_cache := none }

/-- First value bound to a key in a TOML document. -/
def tomlLookup (d : TomlDoc) (k : String) : Option TomlValue :=
  (d.find? (fun kv => kv.fst == k)).map (fun kv => kv.snd)

/-- Deserialize an optional string field: an absent key is `None`
(serde's default for `Option` fields), a string value is `Some`, and a
value of the wrong type is a parse error. -/
def tomlGetStr (d : TomlDoc) (k : String) : Option (Option String) :=
  match tomlLookup d k with
  | none => some none
  | some (TomlValue.str s) => some (some s)
  | some (TomlValue.arr _) => none

/-- Deserialize an optional array-of-strings field. -/
def tomlGetArr (d : TomlDoc) (k : String) : Option (Option (List String)) :=
  match tomlLookup d k with
  | none => some none
  | some (TomlValue.arr xs) => some (some xs)
  | some (TomlValue.str _) => none

/-- `toml::from_str::<PlaymateConfig>` at the document level: each of
the three fields is optional and defaults to `None` when its key is
absent; unknown keys are ignored (derived serde `Deserialize` without
`deny_unknown_fields`). -/
def toml_from_doc (d : TomlDoc) : Option PlaymateConfig :=
  match tomlGetStr d "playlist_id" with
  | none => none
  | some pid =>
    match tomlGetStr d "playlist_snapshot_id" with
    | none => none
    | some snap =>
      match tomlGetArr d "playlist_track_cache" with
      | none => none
      | some cache =>
        some { playlist_id := pid, playlist_snapshot_id := snap,
               playlist_track_cache := cache }

/-- `toml::to_string(&config)` at the document level: `None` fields are
omitted from the emitted document (the `toml` serializer skips keys
whose value is `None`), `Some` fields are emitted with their value. -/
def toml_to_doc (c : PlaymateConfig) : TomlDoc :=
  (match c.playlist_id with
   | some s => [("playlist_id", TomlValue.str s)]
   | none => []) ++
  (match c.playlist_snapshot_id with
   | some s => [("playlist_snapshot_id", TomlValue.str s)]
   | none => []) ++
  (match c.playlist_track_cache with
   | some xs => [("playlist_track_cache", TomlValue.arr xs)]
   | none => [])

/-- File-system model: profile name ↦ content of that profile's
`config.toml`, `none` when the file does not exist. -/
def FS : Type := String → Option TomlDoc

/-- `PlaymateConfig::read_or_create_config_file` + `load` (`main.rs`
lines 37-66): resolve the profile's config path, create an empty file
(and parent directories) when absent, read the content, and parse it;
a parse failure is a panic (`unwrap` on line 64).  Returns the loaded
record together with the possibly-updated file system. -/
def PlaymateConfig.load (profile : String) (fs : FS) :
    Except String (PlaymateConfig × FS) :=
  let fs₁ : FS :=
    match fs profile with
    | some _ => fs
    | none => fun q => if q = profile then some ([] : TomlDoc) else fs q
  let content : TomlDoc := (fs profile).getD []
  match toml_from_doc content with
  | none => Except.error "config toml parse error"
  | some c => Except.ok (c, fs₁)

/-- `PlaymateConfig::save` (`main.rs` lines 68-76): serialize the full
record and overwrite the profile's config file. -/
def PlaymateConfig.save (c : PlaymateConfig) (profile : String) (fs : FS) : FS :=
  fun q => if q = profile then some (toml_to_doc c) else fs q

/-- The cached OAuth credential stored in `token_cache.json`, as far as
the spec's claims discuss it: whether it is expired and whether it
carries a refresh token.  (The file's format is owned by the external
auth collaborator; `spotify_auth` itself never inspects the content
when deciding whether to prompt.) -/
structure Token where
  isExpired : Bool
  hasRefresh : Bool
deriving DecidableEq, Repr

/-- Result of the authentication step: `ok promptShown rest` (the
remaining unread input lines), a fatal failure of the interactive
exchange, or blocking forever on an exhausted input-line list. -/
inductive AuthOutcome
  | ok (promptShown : Bool) (rest : List String)
  | failed (msg : String)
  | blocked
deriving DecidableEq, Repr

/-- `spotify_auth` (`main.rs` lines 170-217).  The decision whether to
run the interactive flow is `!spotify.config.cache_path.exists()`
(line 199): only the existence of the token cache file is examined,
never its content.  When prompting, the code blocks on one line from
standard input (the readiness gate, lines 206-208), then
`prompt_for_token` consumes the pasted redirect URL (a second line) and
performs the exchange, which panics on failure (line 213); `authOk`
models whether that external exchange succeeds.  When the cache file
exists the flow is skipped entirely and the cached token is read back
(line 215). -/
def spotify_auth (cache : Option Token) (authOk : Bool) (stdin : List String) :
    AuthOutcome :=
  match cache with
  | some _ => AuthOutcome.ok false stdin
  | none =>
    match stdin with
    | [] => AuthOutcome.blocked
    | _ :: rest =>
      match rest with
      | [] => AuthOutcome.blocked
      | _ :: rest₁ =>
        if authOk then AuthOutcome.ok true rest₁
        else AuthOutcome.failed "Couldn't authenticate successfully"

/-- A playlist entry fetched at resolution time (`SimplifiedPlaylist`
in rspotify): display name and opaque identifier. -/
structure SimplifiedPlaylist where
  name : String
  id : String
deriving DecidableEq, Repr

/-- Result of the playlist-selection loop: a selected playlist id with
the remaining input lines, a panic, or blocking forever because every
supplied input line was rejected. -/
inductive FetchResult
  | selected (id : String) (rest : List String)
  | crashed (msg : String)
  | outOfInput
deriving DecidableEq, Repr

/-- Rust's `str::trim` (`main.rs` line 151): strip whitespace from both
ends.  (Rust trims by `char::is_whitespace`; the model uses
`Char.isWhitespace`, which covers the ASCII whitespace that matters
for terminal input.)  Defined over the character list so that it
evaluates by kernel reduction. -/
def rustTrim (s : String) : String :=
  String.mk (((s.data.dropWhile Char.isWhitespace).reverse.dropWhile
    Char.isWhitespace).reverse)

/-- Rust's `str::parse::<usize>`: an optional leading `+` sign followed
by one or more ASCII digits, rejecting overflow past `usize::MAX`
(64-bit target).  Defined over the character list so that it evaluates
by kernel reduction. -/
def parseUsize (s : String) : Option Nat :=
  let digits :=
    match s.data with
    | '+' :: rest => rest
    | cs => cs
  if digits.isEmpty || !(digits.all Char.isDigit) then none
  else
    let n := digits.foldl (fun acc ch => acc * 10 + (ch.toNat - 48)) 0
    if n ≤ 2 ^ 64 - 1 then some n else none

/-- First `Err` among the streamed playlist entries, if any: the print
loop (`main.rs` lines 134-140) panics via `expect` when it is about to
display an entry that failed to load. -/
def firstPlaylistError : List (Except String SimplifiedPlaylist) → Option String
  | [] => none
  | Except.error e :: _ => some e
  | Except.ok _ :: rest => firstPlaylistError rest

/-- `fetch_playlist_id` (`main.rs` lines 128-168), with the fully
drained playlist stream (line 129) and the sequence of input lines as
explicit arguments.  Each iteration prints the enumerated names
(panicking on an errored entry), blocks for a line, trims it, parses it
as `usize`, validates `1 <= n <= playlists.len()`, and on any failure
prints an error and loops; on success it returns the selected entry's
id. -/
def fetch_playlist_id (playlists : List (Except String SimplifiedPlaylist)) :
    List String → FetchResult
  | [] =>
    match firstPlaylistError playlists with
    | some e => FetchResult.crashed e
    | none => FetchResult.outOfInput
  | line :: rest =>
    match firstPlaylistError playlists with
    | some e => FetchResult.crashed e
    | none =>
      match parseUsize (rustTrim line) with
      | none => fetch_playlist_id playlists rest
      | some n =>
        if n < 1 ∨ playlists.length < n then fetch_playlist_id playlists rest
        else
          match playlists.get? (n - 1) with
          | some (Except.ok p) => FetchResult.selected p.id rest
          | _ => FetchResult.crashed "Error selecting playlist"

/-- The first valid selection a line yields against a list of `n`
playlists, per the loop's own validation: trim, parse as `usize`,
check `1 <= k <= n`. -/
def validSelection (n : Nat) (line : String) : Option Nat :=
  match parseUsize (rustTrim line) with
  | none => none
  | some k => if k < 1 ∨ n < k then none else some k

/-- The currently playing item (`FullTrack`/`FullEpisode`): its `id()`
is `None` exactly for locally stored files (`main.rs` line 104). -/
structure PlayableItem where
  id : Option String
deriving DecidableEq, Repr

/-- The `CurrentlyPlayingContext` returned by the currently-playing
query: something is playing, but the `item` field may still be absent
(`main.rs` lines 100-103 `expect` on it). -/
structure CurrentlyPlayingContext where
  item : Option PlayableItem
deriving DecidableEq, Repr

/-- The environment a single invocation runs against: the config file
system, the token cache file, whether the interactive OAuth exchange
would succeed, the input lines available on standard input, what the
currently-playing query returns (`Except.error` = API failure), the
streamed playlist entries, the track contents of every playlist by id,
and whether the remove/add playlist mutations succeed. -/
structure World where
  fs : FS
  tokenCache : Option Token
  authOk : Bool
  stdin : List String
  playingResult : Except String (Option CurrentlyPlayingContext)
  playlists : List (Except String SimplifiedPlaylist)
  tracks : String → List String
  removeOk : Bool
  addOk : Bool

/-- How an invocation ends: normal return (exit code 0), a panic with
its diagnostic, or blocking forever on exhausted input. -/
inductive Outcome
  | exited
  | panicked (msg : String)
  | blocked
deriving DecidableEq, Repr

/-- Observable events of a run, in order. -/
inductive Event
  | promptedAuth
  | promptedPlaylistSelection
  | savedConfig
  | removed (pid : String) (tid : String)
  | added (pid : String) (tid : String)
  | notice (msg : String)
deriving DecidableEq, Repr

/-- Final state of a run: outcome, config file system, playlist
contents, and the event trace. -/
structure RunResult where
  outcome : Outcome
  fs : FS
  tracks : String → List String
  events : List Event

/-- State after `main`'s setup phase (load, auth, playlist resolution,
`main.rs` lines 81-87): the resolved target playlist id, the config
file system, and the events so far. -/
structure MidState where
  pid : String
  fs : FS
  events : List Event

/-- `main`'s setup phase (`main.rs` lines 81-87): load the profile's
config, authenticate, and, only when the loaded `playlist_id` is
`None`, resolve a playlist interactively and save the updated record.
`Except.error` carries the completed `RunResult` of a run that ended
during setup. -/
def setup (profile : String) (w : World) : Except RunResult MidState :=
  match PlaymateConfig.load profile w.fs with
  | Except.error e => Except.error ⟨Outcome.panicked e, w.fs, w.tracks, []⟩
  | Except.ok (config, fs₁) =>
    match spotify_auth w.tokenCache w.authOk w.stdin with
    | AuthOutcome.blocked =>
      Except.error ⟨Outcome.blocked, fs₁, w.tracks, [Event.promptedAuth]⟩
    | AuthOutcome.failed e =>
      Except.error ⟨Outcome.panicked e, fs₁, w.tracks, [Event.promptedAuth]⟩
    | AuthOutcome.ok prompted rest =>
      let evs := if prompted then [Event.promptedAuth] else []
      match config.playlist_id with
      | some pid => Except.ok ⟨pid, fs₁, evs⟩
      | none =>
        let evs := evs ++ [Event.promptedPlaylistSelection]
        match fetch_playlist_id w.playlists rest with
        | FetchResult.crashed e =>
          Except.error ⟨Outcome.panicked e, fs₁, w.tracks, evs⟩
        | FetchResult.outOfInput =>
          Except.error ⟨Outcome.blocked, fs₁, w.tracks, evs⟩
        | FetchResult.selected pid _ =>
          let config₁ : PlaymateConfig :=
            { playlist_id := some pid,
              playlist_snapshot_id := config.playlist_snapshot_id,
              playlist_track_cache := config.playlist_track_cache }
          Except.ok ⟨pid, PlaymateConfig.save config₁ profile fs₁,
                     evs ++ [Event.savedConfig]⟩

/-- `main`'s track-moving phase (`main.rs` lines 89-126): query the
currently playing item (panic on API error), return normally with a
notice when nothing is playing, panic when the playing context has no
item, return normally with a notice when the item has no catalog id
(local file), otherwise remove all occurrences of the id from the
target playlist and append it. -/
def trackMove (w : World) (s : MidState) : RunResult :=
  match w.playingResult with
  | Except.error e => ⟨Outcome.panicked e, s.fs, w.tracks, s.events⟩
  | Except.ok none =>
    ⟨Outcome.exited, s.fs, w.tracks,
     s.events ++ [Event.notice "No track is playing"]⟩
  | Except.ok (some ctx) =>
    match ctx.item with
    | none =>
      ⟨Outcome.panicked "Unable to get currently playing item", s.fs, w.tracks,
       s.events⟩
    | some item =>
      match item.id with
      | none =>
        ⟨Outcome.exited, s.fs, w.tracks,
         s.events ++
           [Event.notice
             "The current track is local, so it cannot be added to the playlist"]⟩
      | some tid =>
        if w.removeOk then
          let tracks₁ : String → List String :=
            fun q =>
              if q = s.pid then (w.tracks s.pid).filter (fun t => t != tid)
              else w.tracks q
          if w.addOk then
            ⟨Outcome.exited, s.fs,
             fun q => if q = s.pid then tracks₁ s.pid ++ [tid] else tracks₁ q,
             s.events ++ [Event.removed s.pid tid, Event.added s.pid tid]⟩
          else
            ⟨Outcome.panicked "Error adding current track to playlist", s.fs,
             tracks₁, s.events ++ [Event.removed s.pid tid]⟩
        else
          ⟨Outcome.panicked "Error removing current track from playlist", s.fs,
           w.tracks, s.events⟩

/-- `main` (`main.rs` lines 80-126): setup phase followed by the
track-moving phase. -/
def runMain (profile : String) (w : World) : RunResult :=
  match setup profile w with
  | Except.error r => r
  | Except.ok s => trackMove w s


/-! ### Concrete sample environments used by the witnesses -/

/-- A config file system in which the `default` profile is already
configured with target playlist `"P"`. -/
def sampleFsConfigured : FS :=
  fun q => if q = "default" then some [("playlist_id", TomlValue.str "P")] else none

/-- A config file system in which the `default` profile's config file
exists but is empty (not yet configured). -/
def sampleFsEmpty : FS :=
  fun q => if q = "default" then some ([] : TomlDoc) else none

/-- Base sample world: configured profile, valid token cache, nothing
playing, target playlist `"P"` currently holding `["T", "X"]`. -/
def baseWorld : World :=
  { fs := sampleFsConfigured
    tokenCache := some { isExpired := false, hasRefresh := true }
    authOk := true
    stdin := []
    playingResult := Except.ok none
    playlists := [Except.ok { name := "Mix", id := "P" }]
    tracks := fun _ => ["T", "X"]
    removeOk := true
    addOk := true }

/-- Sample world where track `"T"` (already present once in `"P"`) is
playing. -/
def playingWorld : World :=
  { baseWorld with playingResult := Except.ok (some { item := some { id := some "T" } }) }

/-- Sample world on a first run (empty config file), input line `"1"`
ready, nothing playing. -/
def firstRunWorld : World :=
  { baseWorld with fs := sampleFsEmpty, stdin := ["1"] }

/-- Sample world where something is playing but the playing context has
no retrievable item (e.g. an advertisement). -/
def adWorld : World :=
  { baseWorld with playingResult := Except.ok (some { item := none }) }

/-- Sample world where the playing item is a local file (no catalog
id). -/
def localWorld : World :=
  { baseWorld with playingResult := Except.ok (some { item := some { id := none } }) }

/-! ## Library lemmas about the embedded operations -/

theorem toml_roundtrip (c : PlaymateConfig) : toml_from_doc (toml_to_doc c) = some c := by
  obtain ⟨pid, snap, cache⟩ := c
  cases pid <;> cases snap <;> cases cache <;> rfl

/-- The parse of the empty document (a freshly created empty config
file) is the all-`None` record. -/
theorem toml_from_doc_nil : toml_from_doc ([] : TomlDoc) = some PlaymateConfig.new := rfl

/-- When `load` succeeds with a record whose `playlist_id` is set, the
config file already existed, so `load` left the file system untouched. -/
theorem load_some_id_fs_unchanged (p : String) (fs : FS) (c : PlaymateConfig)
    (fs₁ : FS) (pid : String)
    (hl : PlaymateConfig.load p fs = Except.ok (c, fs₁))
    (hp : c.playlist_id = some pid) : fs₁ = fs := by
  unfold PlaymateConfig.load at hl
  cases hfp : fs p with
  | none =>
    simp only [hfp, Option.getD_none] at hl
    rw [toml_from_doc_nil] at hl
    simp only [Except.ok.injEq, Prod.mk.injEq] at hl
    rw [← hl.1] at hp
    simp [PlaymateConfig.new] at hp
  | some d =>
    simp only [hfp, Option.getD_some] at hl
    cases hparse : toml_from_doc d with
    | none => rw [hparse] at hl; exact absurd hl (by simp)
    | some c₀ =>
      rw [hparse] at hl
      simp only [Except.ok.injEq, Prod.mk.injEq] at hl
      exact hl.2.symm

/-! ## C4: save/load round-trip -/

/-- C4: for every profile name P and every configuration record C,
`load(P)` after `save(P, C)` returns a record equal to C in all three
persisted fields (and leaves the file system as `save` wrote it). -/
theorem save_then_load_roundtrip (p : String) (c : PlaymateConfig) (fs : FS) :
    PlaymateConfig.load p (PlaymateConfig.save c p fs) =
      Except.ok (c, PlaymateConfig.save c p fs) := by
  unfold PlaymateConfig.load
  have hread : PlaymateConfig.save c p fs p = some (toml_to_doc c) := by
    unfold PlaymateConfig.save
    simp
  simp only [hread, Option.getD_some, toml_roundtrip]

/-! ## C9: load is idempotent -/

/-- C9: `load` is idempotent: a second `load` without an intervening
`save` returns the same record and the same file system; the first
`load` changes no other profile's file, leaves an existing file
untouched, and creates an empty file when the profile's file was
absent. -/
theorem load_idempotent (p : String) (fs : FS) (c : PlaymateConfig) (fs₁ : FS)
    (hl : PlaymateConfig.load p fs = Except.ok (c, fs₁)) :
    PlaymateConfig.load p fs₁ = Except.ok (c, fs₁)
    ∧ (∀ q, q ≠ p → fs₁ q = fs q)
    ∧ (fs p ≠ none → fs₁ = fs)
    ∧ (fs p = none → fs₁ p = some []) := by
  unfold PlaymateConfig.load at hl
  cases hfp : fs p with
  | none =>
    simp only [hfp, Option.getD_none] at hl
    rw [toml_from_doc_nil] at hl
    simp only [Except.ok.injEq, Prod.mk.injEq] at hl
    obtain ⟨hc, hfs⟩ := hl
    refine ⟨?_, ?_, ?_, ?_⟩
    · unfold PlaymateConfig.load
      have h₁ : fs₁ p = some ([] : TomlDoc) := by rw [← hfs]; simp
      simp only [h₁, Option.getD_some, toml_from_doc_nil, hc]
    · intro q hq
      rw [← hfs]
      simp [hq]
    · intro h; exact absurd rfl h
    · intro _; rw [← hfs]; simp
  | some d =>
    simp only [hfp, Option.getD_some] at hl
    cases hparse : toml_from_doc d with
    | none => rw [hparse] at hl; exact absurd hl (by simp)
    | some c₀ =>
      rw [hparse] at hl
      simp only [Except.ok.injEq, Prod.mk.injEq] at hl
      obtain ⟨hc, hfs⟩ := hl
      subst hfs
      refine ⟨?_, fun q _ => rfl, fun _ => rfl, fun h => Option.noConfusion h⟩
      unfold PlaymateConfig.load
      simp only [hfp, Option.getD_some, hparse, hc]

/-- Witness for C9 at a concrete input: loading the `default` profile
from an empty file system creates an empty config file and yields the
all-`None` record; the theorem's conclusions hold there. -/
theorem load_idempotent_witness :
    PlaymateConfig.load "default"
        (fun q => if q = "default" then some ([] : TomlDoc) else none) =
      Except.ok (PlaymateConfig.new,
        fun q => if q = "default" then some ([] : TomlDoc) else none) :=
  (load_idempotent "default" (fun _ => none) PlaymateConfig.new
    (fun q => if q = "default" then some ([] : TomlDoc) else none) rfl).1

/-! ## C2: the selection loop accepts exactly in-range integers -/

theorem firstPlaylistError_map_ok (ps : List SimplifiedPlaylist) :
    firstPlaylistError (ps.map Except.ok) = none := by
  induction ps with
  | nil => rfl
  | cons p rest ih => simpa [firstPlaylistError] using ih

theorem fetch_playlist_id_invalid (ps : List SimplifiedPlaylist) (inputs : List String)
    (h : ∀ l ∈ inputs, validSelection ps.length l = none) :
    fetch_playlist_id (ps.map Except.ok) inputs = FetchResult.outOfInput := by
  induction inputs with
  | nil => simp [fetch_playlist_id, firstPlaylistError_map_ok]
  | cons line rest ih =>
    have hline := h line (List.mem_cons_self line rest)
    have hrest : ∀ l ∈ rest, validSelection ps.length l = none :=
      fun l hl => h l (List.mem_cons_of_mem _ hl)
    unfold validSelection at hline
    simp only [fetch_playlist_id, firstPlaylistError_map_ok]
    cases hp : parseUsize (rustTrim line) with
    | none => exact ih hrest
    | some k =>
      rw [hp] at hline
      dsimp only at hline ⊢
      by_cases hk : k < 1 ∨ ps.length < k
      · rw [if_pos (by simpa [List.length_map] using hk)]
        exact ih hrest
      · rw [if_neg hk] at hline
        exact absurd hline (by simp)

theorem fetch_playlist_id_selects (ps : List SimplifiedPlaylist) :
    ∀ (pre : List String) (line : String) (rest : List String) (n : Nat),
      (∀ l ∈ pre, validSelection ps.length l = none) →
      validSelection ps.length line = some n →
      ∃ p, ps.get? (n - 1) = some p ∧
        fetch_playlist_id (ps.map Except.ok) (pre ++ line :: rest) =
          FetchResult.selected p.id rest := by
  intro pre
  induction pre with
  | nil =>
    intro line rest n _ hline
    unfold validSelection at hline
    cases hp : parseUsize (rustTrim line) with
    | none => rw [hp] at hline; exact absurd hline (by simp)
    | some k =>
      rw [hp] at hline
      dsimp only at hline
      by_cases hk : k < 1 ∨ ps.length < k
      · rw [if_pos hk] at hline; exact absurd hline (by simp)
      · rw [if_neg hk] at hline
        have hkn : k = n := by simpa using hline
        subst hkn
        push_neg at hk
        have hlt : k - 1 < ps.length := by omega
        refine ⟨ps.get ⟨k - 1, hlt⟩, List.get?_eq_get hlt, ?_⟩
        simp only [List.nil_append, fetch_playlist_id, firstPlaylistError_map_ok, hp]
        rw [if_neg (by rw [List.length_map]; omega)]
        rw [List.get?_map, List.get?_eq_get hlt]
        simp
  | cons l₀ pre₁ ih =>
    intro line rest n hpre hline
    have hl₀ := hpre l₀ (List.mem_cons_self l₀ pre₁)
    have hpre₁ : ∀ l ∈ pre₁, validSelection ps.length l = none :=
      fun l hl => hpre l (List.mem_cons_of_mem _ hl)
    obtain ⟨p, hp, hfetch⟩ := ih line rest n hpre₁ hline
    refine ⟨p, hp, ?_⟩
    unfold validSelection at hl₀
    simp only [List.cons_append, fetch_playlist_id, firstPlaylistError_map_ok]
    cases hpl : parseUsize (rustTrim l₀) with
    | none => exact hfetch
    | some k =>
      rw [hpl] at hl₀
      dsimp only at hl₀ ⊢
      by_cases hk : k < 1 ∨ ps.length < k
      · rw [if_pos (by simpa [List.length_map] using hk)]
        exact hfetch
      · rw [if_neg hk] at hl₀
        exact absurd hl₀ (by simp)

/-- C2: for every playlist list (of length N, all entries loaded) and
every sequence of input lines, the resolution loop of
`fetch_playlist_id` returns only when an input line validates as an
integer n with 1 ≤ n ≤ N — in which case it returns the id of the n-th
(1-indexed) entry and has consumed exactly the lines up to and
including that one — and when every supplied line is invalid
(non-numeric, empty, 0, or above N) it merely keeps re-prompting,
never crashing. -/
theorem fetch_playlist_id_correct (ps : List SimplifiedPlaylist)
    (inputs : List String) :
    ((∀ l ∈ inputs, validSelection ps.length l = none) →
      fetch_playlist_id (ps.map Except.ok) inputs = FetchResult.outOfInput)
    ∧ (∀ pre line rest n, inputs = pre ++ line :: rest →
        (∀ l ∈ pre, validSelection ps.length l = none) →
        validSelection ps.length line = some n →
        ∃ p, ps.get? (n - 1) = some p ∧
          fetch_playlist_id (ps.map Except.ok) inputs =
            FetchResult.selected p.id rest) :=
  ⟨fetch_playlist_id_invalid ps inputs,
   fun pre line rest n heq hpre hline =>
     heq ▸ fetch_playlist_id_selects ps pre line rest n hpre hline⟩

/-- Witness for C2 at a concrete input: with two playlists, the lines
`"abc"`, `""`, `"0"`, `"3"` are all rejected and `" 2 "` selects the
second playlist. -/
theorem fetch_playlist_id_correct_witness :
    fetch_playlist_id
        ([⟨"Road Trip", "a1"⟩, ⟨"Focus", "b2"⟩].map Except.ok)
        ["abc", "", "0", "3", " 2 "] =
      FetchResult.selected "b2" [] := by
  have h := (fetch_playlist_id_correct [⟨"Road Trip", "a1"⟩, ⟨"Focus", "b2"⟩]
      ["abc", "", "0", "3", " 2 "]).2
      ["abc", "", "0", "3"] " 2 " [] 2 rfl (by decide) (by decide)
  obtain ⟨p, hp, hfetch⟩ := h
  have hp₂ : p = ⟨"Focus", "b2"⟩ := by
    have : some p = some (⟨"Focus", "b2"⟩ : SimplifiedPlaylist) := by
      rw [← hp]; rfl
    simpa using this
  rw [hp₂] at hfetch
  exact hfetch

/-! ## C8: when is the interactive auth prompt skipped? -/

/-- Counterexample to C8 as stated: with a token cache file present
whose credential is expired and not refreshable, `spotify_auth` still
proceeds without any interactive prompt, so skipping the prompt is not
equivalent to the cache containing a non-expired (or refreshable)
credential — only the file's existence is checked. -/
theorem auth_prompt_validity_cex :
    ¬ ((∃ rest, spotify_auth (some { isExpired := true, hasRefresh := false })
          true [] = AuthOutcome.ok false rest)
        ↔ (∃ t, (some { isExpired := true, hasRefresh := false } : Option Token)
            = some t ∧ (t.isExpired = false ∨ t.hasRefresh = true))) := by
  intro h
  obtain ⟨t, ht, hv⟩ := h.mp ⟨[], rfl⟩
  have ht₂ : t = { isExpired := true, hasRefresh := false } :=
    (Option.some.inj ht).symm
  subst ht₂
  rcases hv with hv | hv <;> simp at hv

/-- C8 (amended): `spotify_auth` proceeds without any interactive
prompt exactly when the token cache file exists; the credential inside
is not examined when making that decision.  In particular a present,
unexpired credential leads to no prompt. -/
theorem auth_no_prompt_iff_cache_exists (cache : Option Token) (authOk : Bool)
    (stdin : List String) :
    (∃ rest, spotify_auth cache authOk stdin = AuthOutcome.ok false rest)
      ↔ cache.isSome = true := by
  cases cache with
  | some t => exact ⟨fun _ => rfl, fun _ => ⟨stdin, rfl⟩⟩
  | none =>
    constructor
    · rintro ⟨rest, hr⟩
      cases stdin with
      | nil => exact absurd hr (by simp [spotify_auth])
      | cons a s₁ =>
        cases s₁ with
        | nil => exact absurd hr (by simp [spotify_auth])
        | cons b s₂ => cases authOk <;> simp [spotify_auth] at hr
    · intro h; exact absurd h (by simp)

/-! ## Structural lemmas about the main pipeline -/

/-- The track-moving phase never touches the config file system. -/
theorem trackMove_fs (w : World) (s : MidState) : (trackMove w s).fs = s.fs := by
  unfold trackMove
  cases w.playingResult with
  | error e => rfl
  | ok playing =>
    cases playing with
    | none => rfl
    | some ctx =>
      obtain ⟨oitem⟩ := ctx
      cases oitem with
      | none => rfl
      | some item =>
        obtain ⟨oid⟩ := item
        cases oid with
        | none => rfl
        | some tid => cases hr : w.removeOk <;> cases ha : w.addOk <;> rfl

/-- The track-moving phase only appends events, and never emits an
authentication, selection, or save event. -/
theorem trackMove_events_shape (w : World) (s : MidState) :
    ∃ extra : List Event, (trackMove w s).events = s.events ++ extra
      ∧ Event.promptedAuth ∉ extra
      ∧ Event.promptedPlaylistSelection ∉ extra
      ∧ Event.savedConfig ∉ extra := by
  unfold trackMove
  cases w.playingResult with
  | error e => exact ⟨[], by simp⟩
  | ok playing =>
    cases playing with
    | none => exact ⟨[Event.notice "No track is playing"], by simp⟩
    | some ctx =>
      obtain ⟨oitem⟩ := ctx
      cases oitem with
      | none => exact ⟨[], by simp⟩
      | some item =>
        obtain ⟨oid⟩ := item
        cases oid with
        | none =>
          exact ⟨[Event.notice
            "The current track is local, so it cannot be added to the playlist"],
            by simp⟩
        | some tid =>
          cases hr : w.removeOk with
          | false => exact ⟨[], by simp⟩
          | true =>
            cases ha : w.addOk with
            | false => exact ⟨[Event.removed s.pid tid], by simp⟩
            | true =>
              exact ⟨[Event.removed s.pid tid, Event.added s.pid tid], by simp⟩

/-- Every event emitted during the setup phase is an authentication
prompt, a playlist-selection prompt, or a config save. -/
theorem setup_events_shape (profile : String) (w : World) (s : MidState)
    (hs : setup profile w = Except.ok s) :
    ∀ e ∈ s.events, e = Event.promptedAuth ∨ e = Event.promptedPlaylistSelection
      ∨ e = Event.savedConfig := by
  unfold setup at hs
  cases hl : PlaymateConfig.load profile w.fs with
  | error e => rw [hl] at hs; exact absurd hs (by simp)
  | ok cf =>
    obtain ⟨config, fs₁⟩ := cf
    rw [hl] at hs
    dsimp only at hs
    cases ha : spotify_auth w.tokenCache w.authOk w.stdin with
    | blocked => rw [ha] at hs; exact absurd hs (by simp)
    | failed e => rw [ha] at hs; exact absurd hs (by simp)
    | ok prompted rest =>
      rw [ha] at hs
      dsimp only at hs
      cases hpid : config.playlist_id with
      | some pid =>
        rw [hpid] at hs
        dsimp only at hs
        have hss : s = ⟨pid, fs₁, if prompted then [Event.promptedAuth] else []⟩ :=
          (Except.ok.inj hs).symm
        subst hss
        cases prompted <;> simp
      | none =>
        rw [hpid] at hs
        dsimp only at hs
        cases hf : fetch_playlist_id w.playlists rest with
        | crashed e => rw [hf] at hs; exact absurd hs (by simp)
        | outOfInput => rw [hf] at hs; exact absurd hs (by simp)
        | selected pid rest₁ =>
          rw [hf] at hs
          dsimp only at hs
          have hss : s = ⟨pid,
              PlaymateConfig.save
                { playlist_id := some pid,
                  playlist_snapshot_id := config.playlist_snapshot_id,
                  playlist_track_cache := config.playlist_track_cache } profile fs₁,
              (if prompted then [Event.promptedAuth] else []) ++
                [Event.promptedPlaylistSelection] ++ [Event.savedConfig]⟩ :=
            (Except.ok.inj hs).symm
          subst hss
          cases prompted <;> simp

theorem count_filter_append_self (l : List String) (tid : String) :
    ((l.filter (fun t => t != tid)) ++ [tid]).count tid = 1 := by
  rw [List.count_append]
  have h0 : (l.filter (fun t => t != tid)).count tid = 0 := by
    rw [List.count_eq_zero]
    intro hmem
    have h₁ := (List.mem_filter.mp hmem).2
    simp at h₁
  rw [h0]
  simp [List.count_cons]

theorem getLast?_append_single (l : List String) (a : String) :
    (l ++ [a]).getLast? = some a := by
  rw [List.getLast?_append_cons]
  rfl

/-! ## C3: a persisted playlist id skips resolution entirely -/

/-- C3: when the loaded config already carries a playlist id, the run
never shows the playlist-selection prompt, never saves the config, and
leaves the config file system exactly as it was. -/
theorem persisted_playlist_skips_resolution (profile : String) (w : World)
    (c : PlaymateConfig) (fs₁ : FS) (pid : String)
    (hl : PlaymateConfig.load profile w.fs = Except.ok (c, fs₁))
    (hp : c.playlist_id = some pid) :
    Event.promptedPlaylistSelection ∉ (runMain profile w).events
    ∧ Event.savedConfig ∉ (runMain profile w).events
    ∧ (runMain profile w).fs = w.fs := by
  have hfs : fs₁ = w.fs := load_some_id_fs_unchanged profile w.fs c fs₁ pid hl hp
  subst hfs
  unfold runMain setup
  rw [hl]
  dsimp only
  cases ha : spotify_auth w.tokenCache w.authOk w.stdin with
  | blocked => exact ⟨by simp, by simp, rfl⟩
  | failed e => exact ⟨by simp, by simp, rfl⟩
  | ok prompted rest =>
    dsimp only
    rw [hp]
    dsimp only
    obtain ⟨extra, he, _, hn₂, hn₃⟩ :=
      trackMove_events_shape w ⟨pid, w.fs, if prompted then [Event.promptedAuth] else []⟩
    refine ⟨?_, ?_, trackMove_fs w _⟩
    · rw [he]
      intro hmem
      rcases List.mem_append.mp hmem with hmem | hmem
      · cases prompted <;> simp at hmem
      · exact hn₂ hmem
    · rw [he]
      intro hmem
      rcases List.mem_append.mp hmem with hmem | hmem
      · cases prompted <;> simp at hmem
      · exact hn₃ hmem

/-- Witness for C3 at a concrete input: with the `default` profile
already configured, the run shows no selection prompt, saves nothing,
and leaves the file system untouched. -/
theorem persisted_playlist_skips_resolution_witness :
    Event.promptedPlaylistSelection ∉ (runMain "default" playingWorld).events
    ∧ Event.savedConfig ∉ (runMain "default" playingWorld).events
    ∧ (runMain "default" playingWorld).fs = playingWorld.fs :=
  persisted_playlist_skips_resolution "default" playingWorld
    { playlist_id := some "P", playlist_snapshot_id := none,
      playlist_track_cache := none }
    playingWorld.fs "P" rfl rfl

/-! ## C1: the playing track is moved to the end, duplicates collapsed -/

/-- C1: in any run that reaches the track-moving phase with a playing
catalog track of id `tid` and whose remove/add calls succeed, the run
removes all occurrences of `tid` and then appends it: afterwards the
target playlist contains exactly one occurrence of `tid`, at the end,
and the event trace ends with the remove followed by the add. -/
theorem trackMover_moves_current_track (profile : String) (w : World) (s : MidState)
    (ctx : CurrentlyPlayingContext) (item : PlayableItem) (tid : String)
    (hs : setup profile w = Except.ok s)
    (hq : w.playingResult = Except.ok (some ctx))
    (hi : ctx.item = some item)
    (hid : item.id = some tid)
    (hrem : w.removeOk = true) (hadd : w.addOk = true) :
    (runMain profile w).outcome = Outcome.exited
    ∧ (runMain profile w).events =
        s.events ++ [Event.removed s.pid tid, Event.added s.pid tid]
    ∧ (runMain profile w).tracks s.pid =
        (w.tracks s.pid).filter (fun t => t != tid) ++ [tid]
    ∧ ((runMain profile w).tracks s.pid).count tid = 1
    ∧ ((runMain profile w).tracks s.pid).getLast? = some tid := by
  have hrm : runMain profile w = trackMove w s := by unfold runMain; rw [hs]
  rw [hrm]
  unfold trackMove
  rw [hq]
  dsimp only
  rw [hi]
  dsimp only
  rw [hid]
  dsimp only
  rw [hrem, hadd]
  simp only [if_true]
  refine ⟨trivial, trivial, trivial, ?_, ?_⟩
  · exact count_filter_append_self (w.tracks s.pid) tid
  · exact getLast?_append_single _ tid

/-- Witness for C1 at a concrete input: track `"T"` is playing and
playlist `"P"` is `["T", "X"]`; after the run it is `["X", "T"]`, with
exactly one occurrence of `"T"`. -/
theorem trackMover_moves_current_track_witness :
    (runMain "default" playingWorld).outcome = Outcome.exited
    ∧ (runMain "default" playingWorld).tracks "P" = ["X", "T"]
    ∧ ((runMain "default" playingWorld).tracks "P").count "T" = 1 := by
  have h := trackMover_moves_current_track "default" playingWorld
      ⟨"P", playingWorld.fs, []⟩
      { item := some { id := some "T" } } { id := some "T" } "T"
      rfl rfl rfl rfl rfl rfl
  have h₂ : (playingWorld.tracks "P").filter (fun t => t != "T") ++ ["T"]
      = ["X", "T"] := by decide
  exact ⟨h.1, h.2.2.1.trans h₂, h.2.2.2.1⟩

/-! ## C5: saving after first resolution preserves the other fields -/

/-- C5: on a first run (loaded `playlist_id` is `None`), after the
playlist is resolved the full record is saved: the written document
holds the new `playlist_id` together with the `playlist_snapshot_id`
and `playlist_track_cache` values that were loaded from disk, and it
parses back to exactly that record. -/
theorem save_preserves_unrelated_fields (profile : String) (w : World)
    (c : PlaymateConfig) (fs₁ : FS) (prompted : Bool) (rest rest₁ : List String)
    (pid : String)
    (hl : PlaymateConfig.load profile w.fs = Except.ok (c, fs₁))
    (hn : c.playlist_id = none)
    (ha : spotify_auth w.tokenCache w.authOk w.stdin = AuthOutcome.ok prompted rest)
    (hf : fetch_playlist_id w.playlists rest = FetchResult.selected pid rest₁) :
    ∃ s : MidState, setup profile w = Except.ok s
      ∧ s.fs profile = some (toml_to_doc
          { playlist_id := some pid,
            playlist_snapshot_id := c.playlist_snapshot_id,
            playlist_track_cache := c.playlist_track_cache })
      ∧ toml_from_doc ((s.fs profile).getD []) = some
          { playlist_id := some pid,
            playlist_snapshot_id := c.playlist_snapshot_id,
            playlist_track_cache := c.playlist_track_cache } := by
  refine ⟨⟨pid, PlaymateConfig.save
      { playlist_id := some pid, playlist_snapshot_id := c.playlist_snapshot_id,
        playlist_track_cache := c.playlist_track_cache } profile fs₁,
      (if prompted then [Event.promptedAuth] else []) ++
        [Event.promptedPlaylistSelection] ++ [Event.savedConfig]⟩, ?_, ?_, ?_⟩
  · unfold setup
    rw [hl]
    dsimp only
    rw [ha]
    dsimp only
    rw [hn]
    dsimp only
    rw [hf]
  · show PlaymateConfig.save _ profile fs₁ profile = _
    unfold PlaymateConfig.save
    simp
  · show toml_from_doc ((PlaymateConfig.save _ profile fs₁ profile).getD []) = _
    unfold PlaymateConfig.save
    simp [toml_roundtrip]

/-- Witness for C5 at a concrete input: a first run with an empty
config file, input `"1"`, and one playlist `"P"`; the saved document
parses back to the record with `playlist_id = "P"` and the other two
fields still `None`. -/
theorem save_preserves_unrelated_fields_witness :
    ∃ s : MidState, setup "default" firstRunWorld = Except.ok s
      ∧ s.fs "default" = some (toml_to_doc
          { playlist_id := some "P", playlist_snapshot_id := none,
            playlist_track_cache := none })
      ∧ toml_from_doc ((s.fs "default").getD []) = some
          { playlist_id := some "P", playlist_snapshot_id := none,
            playlist_track_cache := none } :=
  save_preserves_unrelated_fields "default" firstRunWorld
    PlaymateConfig.new firstRunWorld.fs false ["1"] [] "P" rfl rfl rfl rfl

/-! ## C6: no track playing -/

/-- Counterexample to C6 as stated: on a first run (no playlist id
persisted yet) with no track playing, the program still prints the
notice and exits 0 without removing or adding, but the config file is
NOT unchanged — resolution wrote the playlist id to it before the
currently-playing query ran. -/
theorem no_track_config_unchanged_cex :
    firstRunWorld.playingResult = Except.ok none
    ∧ (runMain "default" firstRunWorld).outcome = Outcome.exited
    ∧ Event.notice "No track is playing" ∈ (runMain "default" firstRunWorld).events
    ∧ (runMain "default" firstRunWorld).fs "default" ≠ firstRunWorld.fs "default" := by
  refine ⟨rfl, rfl, ?_, ?_⟩ <;> decide

/-- C6 (amended): in every run whose loaded config already carries a
playlist id (so no first-run resolution occurs) and whose
authentication step completes, if the currently-playing query returns
no playing track then the program prints the notice and exits 0,
emits no remove or add, and the config file system is unchanged.  (On
a first run the resolution step saves the config before the query, so
the file does change there.) -/
theorem no_track_exits_cleanly (profile : String) (w : World)
    (c : PlaymateConfig) (fs₁ : FS) (pid : String) (prompted : Bool)
    (rest : List String)
    (hl : PlaymateConfig.load profile w.fs = Except.ok (c, fs₁))
    (hp : c.playlist_id = some pid)
    (ha : spotify_auth w.tokenCache w.authOk w.stdin = AuthOutcome.ok prompted rest)
    (hq : w.playingResult = Except.ok none) :
    (runMain profile w).outcome = Outcome.exited
    ∧ Event.notice "No track is playing" ∈ (runMain profile w).events
    ∧ (∀ p t, Event.removed p t ∉ (runMain profile w).events)
    ∧ (∀ p t, Event.added p t ∉ (runMain profile w).events)
    ∧ (runMain profile w).fs = w.fs := by
  have hfs : fs₁ = w.fs := load_some_id_fs_unchanged profile w.fs c fs₁ pid hl hp
  subst hfs
  have hsetup : setup profile w =
      Except.ok ⟨pid, w.fs, if prompted then [Event.promptedAuth] else []⟩ := by
    unfold setup
    rw [hl]
    dsimp only
    rw [ha]
    dsimp only
    rw [hp]
  have hrm : runMain profile w =
      trackMove w ⟨pid, w.fs, if prompted then [Event.promptedAuth] else []⟩ := by
    unfold runMain; rw [hsetup]
  rw [hrm]
  unfold trackMove
  rw [hq]
  dsimp only
  refine ⟨rfl, by simp, ?_, ?_, rfl⟩
  · intro p t
    cases prompted <;> simp
  · intro p t
    cases prompted <;> simp

/-- Witness for C6 (amended) at a concrete input: configured profile,
nothing playing — notice printed, exit 0, no remove/add, file system
untouched. -/
theorem no_track_exits_cleanly_witness :
    (runMain "default" baseWorld).outcome = Outcome.exited
    ∧ Event.notice "No track is playing" ∈ (runMain "default" baseWorld).events
    ∧ (∀ p t, Event.removed p t ∉ (runMain "default" baseWorld).events)
    ∧ (∀ p t, Event.added p t ∉ (runMain "default" baseWorld).events)
    ∧ (runMain "default" baseWorld).fs = baseWorld.fs :=
  no_track_exits_cleanly "default" baseWorld
    { playlist_id := some "P", playlist_snapshot_id := none,
      playlist_track_cache := none }
    baseWorld.fs "P" false baseWorld.stdin rfl rfl rfl rfl

/-! ## C7: local track -/

/-- C7: in every run reaching the track-moving phase whose playing item
is a local file (no catalog id), the program prints the notice and
exits 0 without ever emitting a remove or an add. -/
theorem local_track_exits_cleanly (profile : String) (w : World) (s : MidState)
    (ctx : CurrentlyPlayingContext) (item : PlayableItem)
    (hs : setup profile w = Except.ok s)
    (hq : w.playingResult = Except.ok (some ctx))
    (hi : ctx.item = some item)
    (hid : item.id = none) :
    (runMain profile w).outcome = Outcome.exited
    ∧ Event.notice "The current track is local, so it cannot be added to the playlist"
        ∈ (runMain profile w).events
    ∧ (∀ p t, Event.removed p t ∉ (runMain profile w).events)
    ∧ (∀ p t, Event.added p t ∉ (runMain profile w).events) := by
  have hshape := setup_events_shape profile w s hs
  have hrm : runMain profile w = trackMove w s := by unfold runMain; rw [hs]
  rw [hrm]
  unfold trackMove
  rw [hq]
  dsimp only
  rw [hi]
  dsimp only
  rw [hid]
  dsimp only
  refine ⟨rfl, by simp, ?_, ?_⟩
  · intro p t hmem
    rcases List.mem_append.mp hmem with hmem | hmem
    · rcases hshape _ hmem with h | h | h <;> exact Event.noConfusion h
    · simp at hmem
  · intro p t hmem
    rcases List.mem_append.mp hmem with hmem | hmem
    · rcases hshape _ hmem with h | h | h <;> exact Event.noConfusion h
    · simp at hmem

/-- Witness for C7 at a concrete input: a local file is playing —
notice printed, exit 0, no remove/add. -/
theorem local_track_exits_cleanly_witness :
    (runMain "default" localWorld).outcome = Outcome.exited
    ∧ Event.notice "The current track is local, so it cannot be added to the playlist"
        ∈ (runMain "default" localWorld).events
    ∧ (∀ p t, Event.removed p t ∉ (runMain "default" localWorld).events)
    ∧ (∀ p t, Event.added p t ∉ (runMain "default" localWorld).events) :=
  local_track_exits_cleanly "default" localWorld ⟨"P", localWorld.fs, []⟩
    { item := some { id := none } } { id := none } rfl rfl rfl rfl

/-! ## C10: playing context without an item panics -/

/-- C10: in every run reaching the track-moving phase where something
is playing but the context's item is absent (e.g. an advertisement),
the program panics with the `expect` diagnostic instead of exiting 0:
the graceful notice-and-exit paths are only the no-track and
local-track cases. -/
theorem playing_without_item_panics (profile : String) (w : World) (s : MidState)
    (ctx : CurrentlyPlayingContext)
    (hs : setup profile w = Except.ok s)
    (hq : w.playingResult = Except.ok (some ctx))
    (hi : ctx.item = none) :
    (runMain profile w).outcome =
      Outcome.panicked "Unable to get currently playing item"
    ∧ (runMain profile w).outcome ≠ Outcome.exited := by
  have hrm : runMain profile w = trackMove w s := by unfold runMain; rw [hs]
  rw [hrm]
  unfold trackMove
  rw [hq]
  dsimp only
  rw [hi]
  dsimp only
  exact ⟨rfl, by simp⟩

/-- Witness for C10 at a concrete input: an advertisement-like context
(playing, item absent) makes the run panic. -/
theorem playing_without_item_panics_witness :
    (runMain "default" adWorld).outcome =
      Outcome.panicked "Unable to get currently playing item"
    ∧ (runMain "default" adWorld).outcome ≠ Outcome.exited :=
  playing_without_item_panics "default" adWorld ⟨"P", adWorld.fs, []⟩
    { item := none } rfl rfl rfl

/-- Witness for C8 (amended) at a concrete input: with an unexpired
cached credential present, the authentication step completes with no
prompt shown. -/
theorem auth_no_prompt_iff_cache_exists_witness :
    ∃ rest, spotify_auth (some { isExpired := false, hasRefresh := true }) true []
      = AuthOutcome.ok false rest :=
  (auth_no_prompt_iff_cache_exists
    (some { isExpired := false, hasRefresh := true }) true []).mpr rfl
